import Mathlib

/-!
Verification of the transaction-list component
(src/components/transactions/list.tsx).

The component is shallowly embedded: nullable JavaScript values become
Option, JavaScript truthiness of strings and numbers is made explicit,
rendered React output becomes a small tree type RNode, and the two
pieces of interactive state (sorting and selection) become explicit
state-passing functions. The currency aggregation helpers and the
currency/date formatters live outside src and are modelled from the
spec, as marked in their doc comments.
-/

/-- Sort direction, the non-null values of the direction field. -/
inductive Dir where
  | asc
  | desc
deriving DecidableEq, Repr

/-- The sorting state of the component: field code or null, direction or null. -/
structure Sorting where
  field : Option String
  direction : Option Dir
deriving DecidableEq, Repr

/-- A project record, as referenced from a transaction. -/
structure Project where
  name : String
  color : String
deriving DecidableEq, Repr

/-- A category record, as referenced from a transaction. -/
structure Category where
  name : String
  color : String
deriving DecidableEq, Repr

/-- A transaction record with the attributes the component reads.
Nullable attributes are Option; the open-ended extra mapping is an
association list from field codes to values. -/
structure Transaction where
  id : String
  name : String
  merchant : String
  issuedAt : Option String
  total : Option Int
  currencyCode : Option String
  convertedTotal : Option Int
  convertedCurrencyCode : Option String
  projectCode : Option String
  categoryCode : Option String
  files : List String
  type : Option String
  extra : List (String × String)
  project : Option Project
  category : Option Category

/-- A field definition: one column of the table. -/
structure FieldDef where
  code : String
  name : String
  isVisibleInList : Bool
  isExtra : Bool

/-- Rendered output: a text node or an element carrying its class list
and children. -/
inductive RNode where
  | text (s : String)
  | elem (classes : List String) (children : List RNode)

/-- JavaScript truthiness of a nullable string: null and the empty
string are falsy. -/
def truthyStr : Option String → Bool
  | none => false
  | some s => s ≠ ""

/-- JavaScript truthiness of a nullable number: null and zero are falsy. -/
def truthyInt : Option Int → Bool
  | none => false
  | some n => n ≠ 0

/-- The cn class combinator restricted to what the embedding needs:
optional classes that are absent are dropped, the fixed classes are kept. -/
def cn (opts : List (Option String)) (rest : List String) : List String :=
  opts.filterMap id ++ rest

/-- Modelled from the spec: the external collaborator formatCurrency
(amount, currencyCode) -> displayString from the utils library, which is
absent from src. Modelled as an injective rendering of amount and code. -/
def formatCurrency (amount : Int) (code : String) : String :=
  toString amount ++ " " ++ code

/-- Modelled from the spec: the external date-library formatter used for
the issue date, absent from src; the embedding keeps the date string. -/
def formatDate (d : String) : String :=
  d

/-- How React renders a nullable number directly: null renders as
nothing, a number renders as its decimal text. -/
def numericText : Option Int → String
  | none => ""
  | some n => toString n

/-- The color class picked by the total and converted-total formatters:
the lookup with key transaction.type or the string other when that is
falsy; an unknown key yields no class. -/
def totalColorClass (ty : Option String) : Option String :=
  match (if truthyStr ty then ty.getD "" else "other") with
  | "income" => some "text-green-500"
  | "expense" => some "text-red-500"
  | "other" => some "text-black"
  | _ => none

/-- The primary amount text of the total formatter: formatted in the
native currency when total and currencyCode are truthy, otherwise the
raw total rendered directly. -/
def totalPrimaryText (t : Transaction) : String :=
  if truthyInt t.total && truthyStr t.currencyCode then
    formatCurrency (t.total.getD 0) (t.currencyCode.getD "")
  else
    numericText t.total

/-- The second child produced by the JSX guard chain of the total
formatter. The chain convertedTotal, convertedCurrencyCode, codes
differ, span evaluates to its first falsy operand or to the span, and
React renders numbers and strings while dropping null and false: a null
converted amount, a null converted currency code or an equal currency
code yields nothing, a zero converted amount yields the bare text 0, an
empty-string currency code yields an empty text node, and only the
fully truthy case yields the formatted span. -/
def totalConvertedLine (t : Transaction) : List RNode :=
  match t.convertedTotal with
  | none => []
  | some n =>
    if n = 0 then [RNode.text "0"]
    else
      match t.convertedCurrencyCode with
      | none => []
      | some c =>
        if c = "" then [RNode.text ""]
        else if t.currencyCode = some c then []
        else
          [RNode.elem ["text-sm", "-mt-1"]
            [RNode.text ("(" ++ formatCurrency n c ++ ")")]]

/-- The formatValue of the total renderer. -/
def totalFormatValue (t : Transaction) : RNode :=
  RNode.elem ["text-right", "text-lg"]
    [RNode.elem (cn [totalColorClass t.type] ["flex", "flex-col", "justify-end"])
      (RNode.elem [] [RNode.text (totalPrimaryText t)] :: totalConvertedLine t)]

/-- The formatValue of the issuedAt renderer. -/
def issuedAtFormatValue (t : Transaction) : RNode :=
  match t.issuedAt with
  | some d => RNode.text (formatDate d)
  | none => RNode.text ""

/-- The formatValue of the projectCode renderer: a badge with the
project name when the code is truthy, a dash otherwise. -/
def projectCodeFormatValue (t : Transaction) : RNode :=
  if truthyStr t.projectCode then
    RNode.elem ["whitespace-nowrap"] [RNode.text ((t.project.map Project.name).getD "")]
  else
    RNode.text "-"

/-- The formatValue of the categoryCode renderer. -/
def categoryCodeFormatValue (t : Transaction) : RNode :=
  if truthyStr t.categoryCode then
    RNode.elem ["whitespace-nowrap"] [RNode.text ((t.category.map Category.name).getD "")]
  else
    RNode.text "-"

/-- The formatValue of the files renderer: an icon and the file count. -/
def filesFormatValue (t : Transaction) : RNode :=
  RNode.elem ["flex", "items-center", "gap-2", "text-sm"]
    [RNode.elem ["w-4", "h-4"] [], RNode.text (toString t.files.length)]

/-- The formatValue of the convertedTotal renderer. -/
def convertedTotalFormatValue (t : Transaction) : RNode :=
  RNode.elem (cn [totalColorClass t.type]
      ["flex", "flex-col", "justify-end", "text-right", "text-lg"])
    [RNode.text
      (if truthyInt t.convertedTotal && truthyStr t.convertedCurrencyCode then
        formatCurrency (t.convertedTotal.getD 0) (t.convertedCurrencyCode.getD "")
      else
        numericText t.convertedTotal)]

/-- Modelled from the spec: calcNetTotalPerCurrency from the stats
library, absent from src: the signed sum of transaction totals grouped
by currency code, one entry per distinct code in first-encounter order. -/
def calcNetTotalPerCurrency (ts : List Transaction) : List (String × Int) :=
  ts.foldl
    (fun acc t =>
      if acc.any (fun p => p.1 = t.currencyCode.getD "") then
        acc.map (fun p =>
          if p.1 = t.currencyCode.getD "" then (p.1, p.2 + t.total.getD 0) else p)
      else
        acc ++ [(t.currencyCode.getD "", t.total.getD 0)])
    []

/-- Modelled from the spec: calcTotalPerCurrency from the stats library,
absent from src: the sum of absolute transaction totals grouped by
currency code, one entry per distinct code in first-encounter order. -/
def calcTotalPerCurrency (ts : List Transaction) : List (String × Int) :=
  ts.foldl
    (fun acc t =>
      if acc.any (fun p => p.1 = t.currencyCode.getD "") then
        acc.map (fun p =>
          if p.1 = t.currencyCode.getD "" then (p.1, p.2 + |t.total.getD 0|) else p)
      else
        acc ++ [(t.currencyCode.getD "", |t.total.getD 0|)])
    []

/-- The value stored under a key of a per-currency mapping. -/
def groupValue (m : List (String × Int)) (k : String) : Option Int :=
  (m.find? (fun p => p.1 = k)).map Prod.snd

/-- The footerValue of the total renderer: the net-total and turnover
lists rendered one row per currency. -/
def totalFooterValue (ts : List Transaction) : RNode :=
  RNode.elem ["flex", "flex-col", "gap-3", "text-right"]
    [RNode.elem ["space-y-1"]
      (RNode.text "Net Total" ::
        (calcNetTotalPerCurrency ts).map (fun p =>
          RNode.elem [if p.2 ≥ 0 then "text-green-600" else "text-red-600"]
            [RNode.text (formatCurrency p.2 p.1)])),
     RNode.elem ["space-y-1"]
      (RNode.text "Turnover" ::
        (calcTotalPerCurrency ts).map (fun p =>
          RNode.elem ["text-sm"] [RNode.text (formatCurrency p.2 p.1)]))]

/-- A field renderer: display name, code, optional classes, sortability,
optional value formatter and optional footer aggregator. -/
structure FieldRenderer where
  name : String
  code : String
  classes : Option String
  sortable : Bool
  formatValue : Option (Transaction → RNode)
  footerValue : Option (List Transaction → RNode)

/-- The standardFieldRenderers record: the lookup from a standard field
code to its preconfigured renderer. -/
def standardFieldRenderers : String → Option FieldRenderer
  | "name" => some
    { name := "Name", code := "name",
      classes := some "font-medium min-w-[120px] max-w-[300px] overflow-hidden",
      sortable := true, formatValue := none, footerValue := none }
  | "merchant" => some
    { name := "Merchant", code := "merchant",
      classes := some "min-w-[120px] max-w-[250px] overflow-hidden",
      sortable := true, formatValue := none, footerValue := none }
  | "issuedAt" => some
    { name := "Date", code := "issuedAt", classes := some "min-w-[100px]",
      sortable := true, formatValue := some issuedAtFormatValue, footerValue := none }
  | "projectCode" => some
    { name := "Project", code := "projectCode", classes := none,
      sortable := true, formatValue := some projectCodeFormatValue, footerValue := none }
  | "categoryCode" => some
    { name := "Category", code := "categoryCode", classes := none,
      sortable := true, formatValue := some categoryCodeFormatValue, footerValue := none }
  | "files" => some
    { name := "Files", code := "files", classes := none,
      sortable := false, formatValue := some filesFormatValue, footerValue := none }
  | "total" => some
    { name := "Total", code := "total", classes := some "text-right",
      sortable := true, formatValue := some totalFormatValue,
      footerValue := some totalFooterValue }
  | "convertedTotal" => some
    { name := "Converted Total", code := "convertedTotal", classes := some "text-right",
      sortable := true, formatValue := some convertedTotalFormatValue, footerValue := none }
  | "currencyCode" => some
    { name := "Currency", code := "currencyCode", classes := some "text-right",
      sortable := true, formatValue := none, footerValue := none }
  | _ => none

/-- The nine standard field codes. -/
def standardCodes : List String :=
  ["name", "merchant", "issuedAt", "projectCode", "categoryCode",
   "files", "total", "convertedTotal", "currencyCode"]

/-- The property keys every plain JavaScript object literal inherits
from Object.prototype: a property read with one of these keys on the
renderer record yields an inherited function, or the prototype object
itself for the proto accessor, instead of undefined. -/
def objectPrototypeKeys : List String :=
  ["constructor", "hasOwnProperty", "isPrototypeOf", "propertyIsEnumerable",
   "toLocaleString", "toString", "valueOf", "__defineGetter__",
   "__defineSetter__", "__lookupGetter__", "__lookupSetter__", "__proto__"]

/-- The inherited Object.prototype value at a key, read through the
renderer fields the component uses: sortable, classes, formatValue and
footerValue read undefined on a function, giving the falsy and empty
representations here, while name reads the function name: the key
itself for the prototype methods, Object for the constructor, and
undefined for the prototype object reached through the proto accessor,
kept as the empty representation, as is the never-read code field. -/
def inheritedRenderer (key : String) : FieldRenderer :=
  { name := if key = "constructor" then "Object"
      else if key = "__proto__" then "" else key,
    code := "", classes := none, sortable := false,
    formatValue := none, footerValue := none }

/-- getFieldRenderer: the registry lookup with its fallback. The guard
tests JavaScript truthiness of the plain-object property read, so an
own standard renderer and a truthy inherited Object.prototype property
both take the first branch, and only genuinely undefined reads fall
back to the renderer synthesized from the field definition. -/
def getFieldRenderer (field : FieldDef) : FieldRenderer :=
  match standardFieldRenderers field.code with
  | some r => r
  | none =>
    if field.code ∈ objectPrototypeKeys then
      inheritedRenderer field.code
    else
      { name := field.name, code := field.code, classes := some "",
        sortable := false, formatValue := none, footerValue := none }

/-- A field definition with its resolved renderer attached. -/
structure FieldWithRenderer where
  code : String
  name : String
  isVisibleInList : Bool
  isExtra : Bool
  renderer : FieldRenderer

/-- Attaching the resolved renderer to a field, as visibleFields does. -/
def attachRenderer (f : FieldDef) : FieldWithRenderer :=
  { code := f.code, name := f.name, isVisibleInList := f.isVisibleInList,
    isExtra := f.isExtra, renderer := getFieldRenderer f }

/-- visibleFields: the visible field definitions with renderers attached,
input order preserved. -/
def visibleFields (fields : List FieldDef) : List FieldWithRenderer :=
  (fields.filter (fun f => f.isVisibleInList)).map attachRenderer

/-- handleSort: the three-state sort cycle of the component. The new
direction starts ascending; when the trigger hits the current sort field
ascending advances to descending and descending clears; a cleared
direction also clears the field. -/
def handleSort (sorting : Sorting) (field : String) : Sorting :=
  match
    (if sorting.field = some field then
      match sorting.direction with
      | some Dir.asc => some Dir.desc
      | some Dir.desc => none
      | none => some Dir.asc
    else
      some Dir.asc) with
  | some d => { field := some field, direction := some d }
  | none => { field := none, direction := none }

/-- The header click handler: handleSort is invoked only when the
renderer of the column is sortable. -/
def sortTrigger (sorting : Sorting) (r : FieldRenderer) : Sorting :=
  if r.sortable then handleSort sorting r.code else sorting

/-- The sorting initializer: decode the ordering token. No token or an
empty token means unsorted; a leading dash marks descending on the rest
of the token; otherwise ascending on the token itself. -/
def decodeOrdering (ordering : Option String) : Sorting :=
  match ordering with
  | none => { field := none, direction := none }
  | some s =>
    match s.data with
    | [] => { field := none, direction := none }
    | '-' :: rest => { field := some (String.mk rest), direction := some Dir.desc }
    | _ => { field := some s, direction := some Dir.asc }

/-- The ordering token produced for a sorting state: present only when
the field is a truthy string and the direction is non-null; descending
adds the leading dash. -/
def encodeOrdering (sorting : Sorting) : Option String :=
  if truthyStr sorting.field && sorting.direction.isSome then
    some (if sorting.direction = some Dir.desc then
      "-" ++ sorting.field.getD ""
    else
      sorting.field.getD "")
  else
    none

/-- URLSearchParams.delete: every pair with the given key is removed. -/
def paramsDelete (ps : List (String × String)) (k : String) : List (String × String) :=
  ps.filter (fun p => p.1 ≠ k)

/-- URLSearchParams.set: the first pair with the given key takes the new
value, later pairs with that key are removed; a missing key is appended. -/
def paramsSet : List (String × String) → String → String → List (String × String)
  | [], k, v => [(k, v)]
  | p :: rest, k, v =>
    if p.1 = k then (k, v) :: paramsDelete rest k
    else p :: paramsSet rest k v

/-- The useEffect that propagates a sorting change to the router: the
ordering key is set to the encoded token or deleted, on a copy of the
current query parameters. -/
def encodeParams (ps : List (String × String)) (sorting : Sorting) :
    List (String × String) :=
  match encodeOrdering sorting with
  | some tok => paramsSet ps "ordering" tok
  | none => paramsDelete ps "ordering"

/-- toggleAllRows: clear the selection when the selected count equals the
transaction count, otherwise select the id of every listed transaction. -/
def toggleAllRows (selectedIds : List String) (transactions : List Transaction) :
    List String :=
  if selectedIds.length = transactions.length then []
  else transactions.map Transaction.id

/-- toggleOneRow: remove the id when present, append it when absent. -/
def toggleOneRow (selectedIds : List String) (id : String) : List String :=
  if selectedIds.contains id then selectedIds.filter (fun i => i ≠ id)
  else selectedIds ++ [id]

/-- The interactive state of one component instance: the selection and
the transaction list currently supplied. -/
structure ListState where
  selectedIds : List String
  transactions : List Transaction

/-- The toggle-all event on the component state. -/
def stateToggleAll (s : ListState) : ListState :=
  { s with selectedIds := toggleAllRows s.selectedIds s.transactions }

/-- The toggle-one event on the component state; the call sites pass the
id of a rendered, hence listed, transaction. -/
def stateToggleOne (s : ListState) (id : String) : ListState :=
  { s with selectedIds := toggleOneRow s.selectedIds id }

/-- The bulk-action completion callback: the selection is reset. -/
def stateActionComplete (s : ListState) : ListState :=
  { s with selectedIds := [] }

/-- Supplying a new transaction list: the selection state survives the
prop change untouched. -/
def stateSetTransactions (s : ListState) (ts : List Transaction) : ListState :=
  { s with transactions := ts }

/-- The selection invariant of the spec: every selected id is the id of
some listed transaction. -/
def selectionInvariant (s : ListState) : Bool :=
  s.selectedIds.all (fun i => (s.transactions.map Transaction.id).contains i)

/-- Lookup in the extra mapping of a transaction. -/
def lookupExtra (extra : List (String × String)) (code : String) : Option String :=
  (extra.find? (fun p => p.1 = code)).map Prod.snd

/-- String(transaction[code]): the display form of the attribute named by
a field code; a missing attribute stringifies as undefined does. -/
def transactionAttrString (t : Transaction) (code : String) : String :=
  match code with
  | "id" => t.id
  | "name" => t.name
  | "merchant" => t.merchant
  | "issuedAt" => match t.issuedAt with | some d => d | none => "null"
  | "total" => match t.total with | some n => toString n | none => "null"
  | "currencyCode" => match t.currencyCode with | some c => c | none => "null"
  | "convertedTotal" => match t.convertedTotal with | some n => toString n | none => "null"
  | "convertedCurrencyCode" =>
    match t.convertedCurrencyCode with | some c => c | none => "null"
  | "projectCode" => match t.projectCode with | some c => c | none => "null"
  | "categoryCode" => match t.categoryCode with | some c => c | none => "null"
  | "type" => match t.type with | some ty => ty | none => "null"
  | "files" => String.intercalate "," t.files
  | _ => "undefined"

/-- renderFieldInTable: extra fields read the extra mapping with empty
default; otherwise a present formatter is applied; otherwise the
stringified attribute is shown. -/
def renderFieldInTable (t : Transaction) (field : FieldWithRenderer) : RNode :=
  if field.isExtra then
    RNode.text ((lookupExtra t.extra field.code).getD "")
  else
    match field.renderer.formatValue with
    | some fmt => fmt t
    | none => RNode.text (transactionAttrString t field.code)

/-- A transaction with the given id and empty or null attributes,
used as concrete input for witnesses. -/
def mkTx (id : String) : Transaction :=
  { id := id, name := "", merchant := "", issuedAt := none, total := none,
    currencyCode := none, convertedTotal := none, convertedCurrencyCode := none,
    projectCode := none, categoryCode := none, files := [], type := none,
    extra := [], project := none, category := none }

theorem paramsDelete_filter_ne (ps : List (String × String)) (k : String)
    (h : k ≠ "ordering") :
    (paramsDelete ps "ordering").filter (fun p => p.1 = k)
      = ps.filter (fun p => p.1 = k) := by
  unfold paramsDelete
  rw [List.filter_filter]
  apply List.filter_congr
  intro p _
  by_cases hk : p.1 = k
  · subst hk
    simp [h]
  · simp [hk]

theorem paramsSet_filter_ne (ps : List (String × String)) (k tok : String)
    (h : k ≠ "ordering") :
    (paramsSet ps "ordering" tok).filter (fun p => p.1 = k)
      = ps.filter (fun p => p.1 = k) := by
  induction ps with
  | nil => simp [paramsSet, List.filter_cons, Ne.symm h]
  | cons p rest ih =>
    by_cases hp : p.1 = "ordering"
    · rw [paramsSet, if_pos hp, List.filter_cons, List.filter_cons]
      have hpk : ¬(p.1 = k) := fun hkk => h (hkk.symm.trans hp)
      simp only [Ne.symm h, hpk, decide_False, Bool.false_eq_true, if_false]
      exact paramsDelete_filter_ne rest k h
    · rw [paramsSet, if_neg hp, List.filter_cons, List.filter_cons]
      by_cases hk : p.1 = k <;> simp [hk, ih]

/-- Claim C1: the sort-state transition satisfies the three-state cycle:
from unsorted a trigger on a sortable field f yields ascending on f;
from ascending on f it yields descending on f; from descending on f it
clears; a trigger on a sortable field g different from the current sort
field yields ascending on g; and a trigger on a non-sortable column
leaves the state unchanged. -/
theorem C1_sort_cycle :
    (∀ (f : String) (r : FieldRenderer), r.sortable = true → r.code = f →
      sortTrigger { field := none, direction := none } r
        = { field := some f, direction := some Dir.asc }) ∧
    (∀ (f : String) (r : FieldRenderer), r.sortable = true → r.code = f →
      sortTrigger { field := some f, direction := some Dir.asc } r
        = { field := some f, direction := some Dir.desc }) ∧
    (∀ (f : String) (r : FieldRenderer), r.sortable = true → r.code = f →
      sortTrigger { field := some f, direction := some Dir.desc } r
        = { field := none, direction := none }) ∧
    (∀ (f g : String) (r : FieldRenderer) (d : Option Dir),
      r.sortable = true → r.code = g → g ≠ f →
      sortTrigger { field := some f, direction := d } r
        = { field := some g, direction := some Dir.asc }) ∧
    (∀ (s : Sorting) (r : FieldRenderer), r.sortable = false →
      sortTrigger s r = s) := by
  refine ⟨?_, ?_, ?_, ?_, ?_⟩
  · intro f r hs hc
    simp [sortTrigger, handleSort, hs, hc]
  · intro f r hs hc
    simp [sortTrigger, handleSort, hs, hc]
  · intro f r hs hc
    simp [sortTrigger, handleSort, hs, hc]
  · intro f g r d hs hc hgf
    simp [sortTrigger, handleSort, hs, hc, Ne.symm hgf]
  · intro s r hs
    simp [sortTrigger, hs]

/-- Witness for C1 at the name column, the total column and the
non-sortable files column. -/
theorem C1_sort_cycle_witness :
    sortTrigger { field := none, direction := none }
        (getFieldRenderer ⟨"name", "Name", true, false⟩)
      = { field := some "name", direction := some Dir.asc } ∧
    sortTrigger { field := some "name", direction := some Dir.asc }
        (getFieldRenderer ⟨"name", "Name", true, false⟩)
      = { field := some "name", direction := some Dir.desc } ∧
    sortTrigger { field := some "name", direction := some Dir.desc }
        (getFieldRenderer ⟨"name", "Name", true, false⟩)
      = { field := none, direction := none } ∧
    sortTrigger { field := some "name", direction := some Dir.asc }
        (getFieldRenderer ⟨"total", "Total", true, false⟩)
      = { field := some "total", direction := some Dir.asc } ∧
    sortTrigger { field := some "name", direction := some Dir.asc }
        (getFieldRenderer ⟨"files", "Files", true, false⟩)
      = { field := some "name", direction := some Dir.asc } :=
  ⟨C1_sort_cycle.1 "name" _ rfl rfl,
   C1_sort_cycle.2.1 "name" _ rfl rfl,
   C1_sort_cycle.2.2.1 "name" _ rfl rfl,
   C1_sort_cycle.2.2.2.1 "name" "total" _ _ rfl rfl (by decide),
   C1_sort_cycle.2.2.2.2 _ _ rfl⟩

/-- Claim C2: encode is a right inverse of decode on the three tokens the
spec names: the absent token, the bare field code name, and the
dash-marked code -issuedAt all round-trip. -/
theorem C2_token_roundtrip :
    encodeOrdering (decodeOrdering none) = none ∧
    encodeOrdering (decodeOrdering (some "name")) = some "name" ∧
    encodeOrdering (decodeOrdering (some "-issuedAt")) = some "-issuedAt" := by
  refine ⟨rfl, ?_, ?_⟩ <;> decide

/-- Claim C10: the lone-dash token decodes to the empty field name with
descending direction, re-encoding that pair yields no token at all and
deletes the ordering key from the query parameters, so the round-trip
fails precisely at the empty field name. -/
theorem C10_dash_token :
    decodeOrdering (some "-") = { field := some "", direction := some Dir.desc } ∧
    encodeOrdering { field := some "", direction := some Dir.desc } = none ∧
    encodeOrdering (decodeOrdering (some "-")) ≠ some "-" ∧
    encodeParams [("ordering", "-"), ("page", "2")] (decodeOrdering (some "-"))
      = [("page", "2")] := by
  refine ⟨?_, rfl, ?_, ?_⟩ <;> decide

/-- Claim C9: propagating a sort state to the router is a frame over the
other query parameters: for every key other than ordering, the filtered
sublist of pairs with that key is unchanged by the encode step. -/
theorem C9_params_frame (ps : List (String × String)) (s : Sorting) (k : String)
    (h : k ≠ "ordering") :
    (encodeParams ps s).filter (fun p => p.1 = k)
      = ps.filter (fun p => p.1 = k) := by
  unfold encodeParams
  match hcase : encodeOrdering s with
  | some tok => exact paramsSet_filter_ne ps k tok h
  | none => exact paramsDelete_filter_ne ps k h

/-- Witness for C9: the page parameter survives a descending sort on the
issue date. -/
theorem C9_params_frame_witness :
    (encodeParams [("page", "2"), ("ordering", "name")]
        { field := some "issuedAt", direction := some Dir.desc }).filter
        (fun p => p.1 = "page")
      = [("page", "2"), ("ordering", "name")].filter (fun p => p.1 = "page") :=
  C9_params_frame [("page", "2"), ("ordering", "name")]
    { field := some "issuedAt", direction := some Dir.desc } "page" (by decide)

/-- Counterexample for C3: with selection X over the one-element list
holding transaction A, not every listed id is selected, yet toggle-all
clears the selection instead of selecting every listed id, because the
code compares lengths and not set containment. -/
theorem C3_toggle_all_counterexample :
    ([mkTx "A"].map Transaction.id).all (fun i => List.contains ["X"] i) = false ∧
    toggleAllRows ["X"] [mkTx "A"] = [] ∧
    toggleAllRows ["X"] [mkTx "A"] ≠ [mkTx "A"].map Transaction.id := by
  refine ⟨by decide, by decide, by decide⟩

/-- Claim C3 as amended: toggle-all clears the selection exactly when the
selected count equals the listed count, and otherwise selects every
listed id; when the selection is a duplicate-free subset of the listed
ids and the listed ids are distinct, the count condition coincides with
every listed id being selected; the concrete double invocation over
A, B, C behaves as the claim states. -/
theorem C3_toggle_all_amended :
    (∀ (sel : List String) (ts : List Transaction),
      sel.length = ts.length → toggleAllRows sel ts = []) ∧
    (∀ (sel : List String) (ts : List Transaction),
      sel.length ≠ ts.length → toggleAllRows sel ts = ts.map Transaction.id) ∧
    (∀ (sel : List String) (ts : List Transaction),
      sel.Nodup → (ts.map Transaction.id).Nodup →
      (∀ i ∈ sel, i ∈ ts.map Transaction.id) →
      (toggleAllRows sel ts = [] ↔ ∀ i ∈ ts.map Transaction.id, i ∈ sel)) ∧
    (toggleAllRows [] [mkTx "A", mkTx "B", mkTx "C"] = ["A", "B", "C"] ∧
      toggleAllRows (toggleAllRows [] [mkTx "A", mkTx "B", mkTx "C"])
        [mkTx "A", mkTx "B", mkTx "C"] = []) := by
  refine ⟨?_, ?_, ?_, by decide, by decide⟩
  · intro sel ts hlen
    simp [toggleAllRows, hlen]
  · intro sel ts hlen
    simp [toggleAllRows, hlen]
  · intro sel ts hsel hids hsub
    constructor
    · intro hempty
      by_cases hlen : sel.length = ts.length
      · have hsp : List.Subperm sel (ts.map Transaction.id) :=
          List.subperm_of_subset hsel (fun i hi => hsub i hi)
        have hperm : List.Perm sel (ts.map Transaction.id) :=
          hsp.perm_of_length_le (by rw [List.length_map, ← hlen])
        intro i hi
        exact hperm.symm.subset hi
      · have hmap : ts.map Transaction.id = [] := by
          rw [toggleAllRows, if_neg hlen] at hempty
          exact hempty
        intro i hi
        rw [hmap] at hi
        cases hi
    · intro hfull
      have h1 : List.Subperm sel (ts.map Transaction.id) :=
        List.subperm_of_subset hsel (fun i hi => hsub i hi)
      have h2 : List.Subperm (ts.map Transaction.id) sel :=
        List.subperm_of_subset hids (fun i hi => hfull i hi)
      have hperm : List.Perm sel (ts.map Transaction.id) := h1.antisymm h2
      have hlen : sel.length = ts.length := by
        rw [hperm.length_eq, List.length_map]
      simp [toggleAllRows, hlen]

/-- Witness for the amended C3 at concrete selections over the
one-element list holding transaction A. -/
theorem C3_toggle_all_amended_witness :
    toggleAllRows ["X"] [mkTx "A"] = [] ∧
    toggleAllRows [] [mkTx "A"] = ["A"] ∧
    (toggleAllRows ["A"] [mkTx "A"] = [] ↔
      ∀ i ∈ [mkTx "A"].map Transaction.id, i ∈ ["A"]) :=
  ⟨C3_toggle_all_amended.1 ["X"] [mkTx "A"] (by decide),
   C3_toggle_all_amended.2.1 [] [mkTx "A"] (by decide),
   C3_toggle_all_amended.2.2.1 ["A"] [mkTx "A"] (by decide) (by decide)
     (by decide)⟩

/-- Counterexample for C4: with transaction A listed and selected, the
invariant holds; supplying the new one-element list holding transaction
B keeps the selection untouched and the invariant is now violated. -/
theorem C4_selection_subset_counterexample :
    selectionInvariant { selectedIds := ["A"], transactions := [mkTx "A"] } = true ∧
    (stateSetTransactions { selectedIds := ["A"], transactions := [mkTx "A"] }
      [mkTx "B"]).selectedIds = ["A"] ∧
    selectionInvariant
      (stateSetTransactions { selectedIds := ["A"], transactions := [mkTx "A"] }
        [mkTx "B"]) = false := by
  refine ⟨by decide, by decide, by decide⟩

/-- Claim C4 as amended: the event operations of the component, namely
toggle-all, toggle-one with the id of a listed transaction, and the
bulk-action completion reset, preserve the invariant that every selected
id is a listed transaction id; supplying a new transaction list does
not, since the selection survives untouched. -/
theorem C4_selection_subset_amended (s : ListState) (id : String)
    (hinv : selectionInvariant s = true)
    (hid : id ∈ s.transactions.map Transaction.id) :
    selectionInvariant (stateToggleAll s) = true ∧
    selectionInvariant (stateToggleOne s id) = true ∧
    selectionInvariant (stateActionComplete s) = true := by
  simp only [selectionInvariant, stateToggleAll, stateToggleOne, stateActionComplete,
    List.all_eq_true, List.contains, List.elem_iff] at hinv ⊢
  refine ⟨?_, ?_, ?_⟩
  · intro i hi
    simp only [toggleAllRows] at hi
    by_cases hlen : s.selectedIds.length = s.transactions.length
    · rw [if_pos hlen] at hi
      cases hi
    · rw [if_neg hlen] at hi
      exact hi
  · intro i hi
    simp only [toggleOneRow] at hi
    by_cases hmem : s.selectedIds.contains id
    · rw [if_pos hmem] at hi
      exact hinv i (List.mem_of_mem_filter hi)
    · rw [if_neg hmem] at hi
      rcases List.mem_append.mp hi with hcase | hcase
      · exact hinv i hcase
      · rw [List.mem_singleton.mp hcase]
        exact hid
  · intro i hi
    cases hi

/-- Witness for the amended C4: a valid selection of A over the list
holding A and B, toggling the listed id B. -/
theorem C4_selection_subset_amended_witness :
    selectionInvariant
      (stateToggleAll { selectedIds := ["A"], transactions := [mkTx "A", mkTx "B"] })
      = true ∧
    selectionInvariant
      (stateToggleOne { selectedIds := ["A"], transactions := [mkTx "A", mkTx "B"] }
        "B") = true ∧
    selectionInvariant
      (stateActionComplete
        { selectedIds := ["A"], transactions := [mkTx "A", mkTx "B"] }) = true :=
  C4_selection_subset_amended
    { selectedIds := ["A"], transactions := [mkTx "A", mkTx "B"] } "B"
    (by decide) (by decide)

theorem standardFieldRenderers_isSome_iff (c : String) :
    (standardFieldRenderers c).isSome = true ↔ c ∈ standardCodes := by
  constructor
  · intro h
    unfold standardFieldRenderers at h
    split at h <;> simp_all [standardCodes]
  · intro h
    simp only [standardCodes, List.mem_cons, List.not_mem_nil, or_false] at h
    rcases h with h | h | h | h | h | h | h | h | h <;> subst h <;> rfl

theorem standardFieldRenderers_eq_none (c : String) (hc : c ∉ standardCodes) :
    standardFieldRenderers c = none := by
  rcases hcase : standardFieldRenderers c with _ | r
  · rfl
  · exact absurd ((standardFieldRenderers_isSome_iff c).mp (by rw [hcase]; rfl)) hc

/-- Counterexample for C5: the field code toString is not one of the
nine standard codes, yet the plain-object lookup hits the inherited
Object.prototype.toString function, which is truthy, so getFieldRenderer
returns that inherited value instead of the fallback: its display name
is the function name toString, not the field definition name. -/
theorem C5_renderer_registry_counterexample :
    "toString" ∉ standardCodes ∧
    getFieldRenderer ⟨"toString", "My Column", true, false⟩
      = inheritedRenderer "toString" ∧
    (getFieldRenderer ⟨"toString", "My Column", true, false⟩).name = "toString" ∧
    (getFieldRenderer ⟨"toString", "My Column", true, false⟩).name ≠ "My Column" := by
  refine ⟨by decide, rfl, rfl, by decide⟩

/-- Claim C5 as amended: a field whose code is one of the nine standard
codes resolves to the preconfigured renderer of that code, and the nine
standard codes are exactly those with a preconfigured renderer; a field
whose code is neither standard nor an inherited Object.prototype
property resolves to the fallback renderer that copies the display name
from the field definition, is not sortable, and has no formatter and no
aggregator; a field whose code names an inherited Object.prototype
property resolves to the truthy inherited value instead of the fallback,
likewise not sortable and without formatter or aggregator, but with a
display name that is not copied from the field definition. -/
theorem C5_renderer_registry :
    (∀ (f : FieldDef) (r : FieldRenderer),
      standardFieldRenderers f.code = some r → getFieldRenderer f = r) ∧
    (∀ c : String, (standardFieldRenderers c).isSome = true ↔ c ∈ standardCodes) ∧
    (∀ f : FieldDef, f.code ∉ standardCodes → f.code ∉ objectPrototypeKeys →
      getFieldRenderer f
        = { name := f.name, code := f.code, classes := some "",
            sortable := false, formatValue := none, footerValue := none }) ∧
    (∀ f : FieldDef, f.code ∉ standardCodes → f.code ∈ objectPrototypeKeys →
      getFieldRenderer f = inheritedRenderer f.code ∧
        (getFieldRenderer f).sortable = false ∧
        (getFieldRenderer f).formatValue = none ∧
        (getFieldRenderer f).footerValue = none) := by
  refine ⟨?_, standardFieldRenderers_isSome_iff, ?_, ?_⟩
  · intro f r h
    unfold getFieldRenderer
    rw [h]
  · intro f h1 h2
    have hnone := standardFieldRenderers_eq_none f.code h1
    simp [getFieldRenderer, hnone, h2]
  · intro f h1 h2
    have hnone := standardFieldRenderers_eq_none f.code h1
    have he : getFieldRenderer f = inheritedRenderer f.code := by
      simp [getFieldRenderer, hnone, h2]
    exact ⟨he, by rw [he]; rfl, by rw [he]; rfl, by rw [he]; rfl⟩

/-- Witness for the amended C5 at the standard code total, the custom
code custom1 and the inherited prototype key valueOf. -/
theorem C5_renderer_registry_witness :
    getFieldRenderer ⟨"total", "My Total", true, false⟩
      = { name := "Total", code := "total", classes := some "text-right",
          sortable := true, formatValue := some totalFormatValue,
          footerValue := some totalFooterValue } ∧
    ((standardFieldRenderers "total").isSome = true ↔ "total" ∈ standardCodes) ∧
    getFieldRenderer ⟨"custom1", "Custom", true, false⟩
      = { name := "Custom", code := "custom1", classes := some "",
          sortable := false, formatValue := none, footerValue := none } ∧
    (getFieldRenderer ⟨"valueOf", "Value", true, false⟩ = inheritedRenderer "valueOf" ∧
      (getFieldRenderer ⟨"valueOf", "Value", true, false⟩).sortable = false ∧
      (getFieldRenderer ⟨"valueOf", "Value", true, false⟩).formatValue = none ∧
      (getFieldRenderer ⟨"valueOf", "Value", true, false⟩).footerValue = none) :=
  ⟨C5_renderer_registry.1 ⟨"total", "My Total", true, false⟩ _ rfl,
   C5_renderer_registry.2.1 "total",
   C5_renderer_registry.2.2.1 ⟨"custom1", "Custom", true, false⟩ (by decide) (by decide),
   C5_renderer_registry.2.2.2 ⟨"valueOf", "Value", true, false⟩ (by decide) (by decide)⟩

/-- Claim C6: cell value derivation follows the three-step priority: an
extra field reads the extra mapping by code and an absent key yields the
empty string; otherwise a present formatter applied to the transaction
is the cell value; otherwise the cell is the stringified attribute named
by the field code. -/
theorem C6_cell_value (t : Transaction) (field : FieldWithRenderer) :
    (field.isExtra = true → ∀ v, lookupExtra t.extra field.code = some v →
      renderFieldInTable t field = RNode.text v) ∧
    (field.isExtra = true → lookupExtra t.extra field.code = none →
      renderFieldInTable t field = RNode.text "") ∧
    (field.isExtra = false →
      ∀ fmt, field.renderer.formatValue = some fmt →
      renderFieldInTable t field = fmt t) ∧
    (field.isExtra = false → field.renderer.formatValue = none →
      renderFieldInTable t field = RNode.text (transactionAttrString t field.code)) := by
  refine ⟨?_, ?_, ?_, ?_⟩
  · intro hx v hv
    simp [renderFieldInTable, hx, hv]
  · intro hx hv
    simp [renderFieldInTable, hx, hv]
  · intro hx fmt hfmt
    simp [renderFieldInTable, hx, hfmt]
  · intro hx hfmt
    simp [renderFieldInTable, hx, hfmt]

/-- Witness for C6: the extra field custom1 on a transaction whose extra
mapping lacks the key renders as the empty string; the total column of a
plain transaction goes through its formatter; the merchant column of a
plain transaction falls back to the stringified attribute. -/
theorem C6_cell_value_witness :
    renderFieldInTable (mkTx "T") (attachRenderer ⟨"custom1", "Custom", true, true⟩)
      = RNode.text "" ∧
    renderFieldInTable (mkTx "T") (attachRenderer ⟨"total", "Total", true, false⟩)
      = totalFormatValue (mkTx "T") ∧
    renderFieldInTable (mkTx "T") (attachRenderer ⟨"merchant", "Merchant", true, false⟩)
      = RNode.text (transactionAttrString (mkTx "T") "merchant") :=
  ⟨(C6_cell_value (mkTx "T") (attachRenderer ⟨"custom1", "Custom", true, true⟩)).2.1
      rfl rfl,
   (C6_cell_value (mkTx "T") (attachRenderer ⟨"total", "Total", true, false⟩)).2.2.1
      rfl totalFormatValue rfl,
   (C6_cell_value (mkTx "T") (attachRenderer ⟨"merchant", "Merchant", true, false⟩)).2.2.2
      rfl rfl⟩

theorem truthyInt_some (o : Option Int) (h : truthyInt o = true) :
    ∃ n, o = some n ∧ ¬(n = 0) := by
  cases o with
  | none => simp [truthyInt] at h
  | some n => exact ⟨n, rfl, by simpa [truthyInt] using h⟩

theorem truthyStr_some (o : Option String) (h : truthyStr o = true) :
    ∃ c, o = some c ∧ ¬(c = "") := by
  cases o with
  | none => simp [truthyStr] at h
  | some c => exact ⟨c, rfl, by simpa [truthyStr] using h⟩

/-- A transaction whose converted amount exists but equals zero, in a
currency different from the native one. -/
def txZeroConverted : Transaction :=
  { mkTx "T" with total := some 100, currencyCode := some "USD", convertedTotal := some 0, convertedCurrencyCode := some "EUR" }

/-- A transaction whose converted amount exists and whose converted
currency code is the empty string, which differs from the native one. -/
def txEmptyConvertedCode : Transaction :=
  { mkTx "E" with total := some 100, currencyCode := some "USD", convertedTotal := some 5, convertedCurrencyCode := some "" }

/-- Counterexample for C7: the converted amount 5 exists and its
currency code, the empty string, differs from the native USD, yet the
formatter appends no second line carrying the converted amount: the
guard chain short-circuits on the falsy empty string and the output is
a lone empty text node. On the related zero input the chain
short-circuits on the falsy number zero, which React renders as a bare
0 text child on its own flex row rather than the formatted converted
amount on a second line. -/
theorem C7_total_formatter_counterexample :
    txEmptyConvertedCode.convertedTotal.isSome = true ∧
    txEmptyConvertedCode.convertedCurrencyCode ≠ txEmptyConvertedCode.currencyCode ∧
    totalConvertedLine txEmptyConvertedCode = [RNode.text ""] ∧
    txZeroConverted.convertedTotal.isSome = true ∧
    txZeroConverted.convertedCurrencyCode ≠ txZeroConverted.currencyCode ∧
    totalConvertedLine txZeroConverted = [RNode.text "0"] := by
  refine ⟨rfl, by decide, rfl, rfl, by decide, rfl⟩

/-- Claim C7 as amended: the total formatter is a pure function of one
transaction that picks the color class from the type tag and renders
the primary amount in the native currency whenever total and currency
code are truthy; the converted-amount guard chain appends the formatted
converted amount on a second line exactly when the converted amount is
truthy (non-null and nonzero), the converted currency code is truthy
(non-null and non-empty), and the converted currency code differs from
the native one; a null converted amount, a null converted currency
code, or an equal currency code appends nothing, while a zero converted
amount appends the bare text 0 and an empty-string converted currency
code appends an empty text node, because React renders the falsy number
and string operands of the chain. -/
theorem C7_total_formatter (t : Transaction) :
    totalColorClass (some "income") = some "text-green-500" ∧
    totalColorClass (some "expense") = some "text-red-500" ∧
    totalColorClass (some "other") = some "text-black" ∧
    totalColorClass none = some "text-black" ∧
    (truthyInt t.total = true → truthyStr t.currencyCode = true →
      totalPrimaryText t = formatCurrency (t.total.getD 0) (t.currencyCode.getD "")) ∧
    (truthyInt t.convertedTotal = true → truthyStr t.convertedCurrencyCode = true →
      t.convertedCurrencyCode ≠ t.currencyCode →
      totalConvertedLine t
        = [RNode.elem ["text-sm", "-mt-1"]
            [RNode.text ("(" ++ formatCurrency (t.convertedTotal.getD 0)
              (t.convertedCurrencyCode.getD "") ++ ")")]]) ∧
    (t.convertedTotal = some 0 → totalConvertedLine t = [RNode.text "0"]) ∧
    (t.convertedTotal = none → totalConvertedLine t = []) ∧
    (truthyInt t.convertedTotal = true → t.convertedCurrencyCode = none →
      totalConvertedLine t = []) ∧
    (truthyInt t.convertedTotal = true → t.convertedCurrencyCode = some "" →
      totalConvertedLine t = [RNode.text ""]) ∧
    (truthyInt t.convertedTotal = true → truthyStr t.convertedCurrencyCode = true →
      t.convertedCurrencyCode = t.currencyCode → totalConvertedLine t = []) ∧
    totalFormatValue t
      = RNode.elem ["text-right", "text-lg"]
          [RNode.elem (cn [totalColorClass t.type] ["flex", "flex-col", "justify-end"])
            (RNode.elem [] [RNode.text (totalPrimaryText t)] :: totalConvertedLine t)] := by
  refine ⟨rfl, rfl, rfl, rfl, ?_, ?_, ?_, ?_, ?_, ?_, ?_, rfl⟩
  · intro h1 h2
    simp [totalPrimaryText, h1, h2]
  · intro h1 h2 h3
    obtain ⟨n, ht, hn⟩ := truthyInt_some t.convertedTotal h1
    obtain ⟨c, hc, hcne⟩ := truthyStr_some t.convertedCurrencyCode h2
    rw [hc] at h3
    have hcc : ¬(t.currencyCode = some c) := fun hh => h3 hh.symm
    simp [totalConvertedLine, ht, hc, hn, hcne, hcc]
  · intro h
    simp [totalConvertedLine, h]
  · intro h
    simp [totalConvertedLine, h]
  · intro h1 h2
    obtain ⟨n, ht, hn⟩ := truthyInt_some t.convertedTotal h1
    simp [totalConvertedLine, ht, hn, h2]
  · intro h1 h2
    obtain ⟨n, ht, hn⟩ := truthyInt_some t.convertedTotal h1
    simp [totalConvertedLine, ht, hn, h2]
  · intro h1 h2 h3
    obtain ⟨n, ht, hn⟩ := truthyInt_some t.convertedTotal h1
    obtain ⟨c, hc, hcne⟩ := truthyStr_some t.convertedCurrencyCode h2
    rw [hc] at h3
    have hcc : t.currencyCode = some c := h3.symm
    simp [totalConvertedLine, ht, hc, hn, hcne, hcc]

/-- A transaction carrying a nonzero converted amount in a currency
different from the native one, used by the witness for C7. -/
def txWithConverted : Transaction :=
  { mkTx "W" with total := some 100, currencyCode := some "USD", convertedTotal := some 90, convertedCurrencyCode := some "EUR" }

/-- Witness for the amended C7: the formatted second line on a nonzero
converted amount in a different currency, and the bare zero text child
on a zero converted amount. -/
theorem C7_total_formatter_witness :
    totalPrimaryText txWithConverted = formatCurrency 100 "USD" ∧
    totalConvertedLine txWithConverted
      = [RNode.elem ["text-sm", "-mt-1"]
          [RNode.text ("(" ++ formatCurrency 90 "EUR" ++ ")")]] ∧
    totalConvertedLine txZeroConverted = [RNode.text "0"] :=
  ⟨(C7_total_formatter txWithConverted).2.2.2.2.1 (by decide) (by decide),
   (C7_total_formatter txWithConverted).2.2.2.2.2.1 (by decide) (by decide)
     (by decide),
   (C7_total_formatter txZeroConverted).2.2.2.2.2.2.1 rfl⟩

/-- The three-transaction list of the aggregation property in the spec. -/
def txsAggregation : List Transaction :=
  [{ mkTx "t1" with total := some 100, currencyCode := some "USD" }, { mkTx "t2" with total := some (-40), currencyCode := some "USD" }, { mkTx "t3" with total := some 50, currencyCode := some "EUR" }]

/-- Claim C8: over the transactions with totals 100 USD, -40 USD and
50 EUR, the net-total-per-currency mapping has exactly the keys USD and
EUR with signed sums 60 and 50, and the turnover-per-currency mapping
has exactly the same keys with absolute-value sums 140 and 50. -/
theorem C8_per_currency_aggregation :
    groupValue (calcNetTotalPerCurrency txsAggregation) "USD" = some 60 ∧
    groupValue (calcNetTotalPerCurrency txsAggregation) "EUR" = some 50 ∧
    (calcNetTotalPerCurrency txsAggregation).map Prod.fst = ["USD", "EUR"] ∧
    groupValue (calcTotalPerCurrency txsAggregation) "USD" = some 140 ∧
    groupValue (calcTotalPerCurrency txsAggregation) "EUR" = some 50 ∧
    (calcTotalPerCurrency txsAggregation).map Prod.fst = ["USD", "EUR"] := by
  refine ⟨by decide, by decide, by decide, by decide, by decide, by decide⟩
